import Mathlib

/-!
Verification of the test-harness builder and dispatch contracts of the
`cqrs` repository (`src/test/framework.rs`, `src/query.rs`).

The builder `GenericTestFramework` is embedded as a Lean structure whose
type parameters stand for the Rust generics: `S` for `A::Services`, `Q`
for `Box<dyn Query<A>>`, `R` for `Box<dyn Reactor<A, AC>>`, `C` for the
aggregate-context type `AC` and `St` for the event-store type.  A Rust
`panic!` is embedded as `Option.none`: a builder transition that can
panic returns `Option` and yields `none` exactly when the Rust code
panics.
-/

/-- Modelled from the spec: `MemStoreAggregateContext`, the in-memory
reference `AggregateContext` implementation (its source file
`mem_store.rs` is not among the given sources).  The spec describes it
as read-only access to the last persisted aggregate state; only its
`Default::default()` construction is used by the harness builder. -/
structure MemStoreAggregateContext (Ev : Type) where
  committed : List Ev

instance {Ev : Type} : Inhabited (MemStoreAggregateContext Ev) :=
  ⟨⟨[]⟩⟩

/-- Modelled from the spec: `MemStore`, the in-memory reference
`EventStore` implementation (its source file `mem_store.rs` is not
among the given sources).  Only its `Default::default()` construction
is used by the harness builder. -/
structure MemStore (Ev : Type) where
  events : List Ev

instance {Ev : Type} : Inhabited (MemStore Ev) :=
  ⟨⟨[]⟩⟩

/-- The builder struct from `src/test/framework.rs` lines 16-26:
`service`, `queries`, `reactors` and the optional `(context, store)`
pair. -/
structure GenericTestFramework (S Q R C St : Type) where
  service : S
  queries : List Q
  reactors : List R
  context_store : Option (C × St)

/-- Modelled from the spec: the Test Executor (its source file is not
among the given sources).  It owns the finalized configuration plus a
seeded event history; its fields are exactly the four arguments the
builder passes to `AggregateTestExecutor::new` in
`src/test/framework.rs` lines 138 and 151. -/
structure AggregateTestExecutor (Ev S Q C St : Type) where
  events : List Ev
  service : S
  queries : List Q
  context_store : Option (C × St)

/-- Modelled from the spec: the constructor `AggregateTestExecutor::new`
called by the builder; it stores the four arguments in order. -/
def AggregateTestExecutor.new {Ev S Q C St : Type}
    (events : List Ev) (service : S) (queries : List Q)
    (context_store : Option (C × St)) :
    AggregateTestExecutor Ev S Q C St :=
  { events := events, service := service, queries := queries,
    context_store := context_store }

namespace GenericTestFramework

/-- Embeds `GenericTestFramework::with` (`framework.rs` lines 30-40):
empty queries, empty reactors, no context/store pair.  Named `with_`
because `with` is a Lean keyword. -/
def with_ {S Q R Ev : Type} (service : S) :
    GenericTestFramework S Q R (MemStoreAggregateContext Ev) (MemStore Ev) :=
  { service := service, queries := [], reactors := [], context_store := none }

/-- Embeds `using_context_and_store` (`framework.rs` lines 43-65).  The
Rust method is defined only on the `MemStore`-typed builder, panics when
`self.reactors` is non-empty (modelled as `none`), and otherwise carries
`service` and `queries` over, starts a fresh empty reactor list at the
new context type `C2`, and binds the supplied pair. -/
def using_context_and_store {S Q R Ev C2 St2 R2 : Type}
    (self : GenericTestFramework S Q R (MemStoreAggregateContext Ev) (MemStore Ev))
    (context : C2) (store : St2) :
    Option (GenericTestFramework S Q R2 C2 St2) :=
  if self.reactors.isEmpty then
    some { service := self.service, queries := self.queries,
           reactors := [], context_store := some (context, store) }
  else
    none

/-- Embeds `using_mem_store` (`framework.rs` lines 68-72): delegates to
`using_context_and_store` with defaulted `MemStoreAggregateContext` and
`MemStore`. -/
def using_mem_store {S Q R Ev R2 : Type}
    (self : GenericTestFramework S Q R (MemStoreAggregateContext Ev) (MemStore Ev)) :
    Option (GenericTestFramework S Q R2 (MemStoreAggregateContext Ev) (MemStore Ev)) :=
  self.using_context_and_store default default

/-- Embeds `and_query` (`framework.rs` lines 83-95): pushes the query at
the end of the query list, all other fields unchanged. -/
def and_query {S Q R C St : Type}
    (self : GenericTestFramework S Q R C St) (query : Q) :
    GenericTestFramework S Q R C St :=
  { service := self.service, queries := self.queries ++ [query],
    reactors := self.reactors, context_store := self.context_store }

/-- Embeds `and_queries` (`framework.rs` lines 99-101): a left fold of
`and_query` over the supplied list. -/
def and_queries {S Q R C St : Type}
    (self : GenericTestFramework S Q R C St) (queries : List Q) :
    GenericTestFramework S Q R C St :=
  queries.foldl (fun acc q => acc.and_query q) self

/-- Embeds `and_reactor` (`framework.rs` lines 106-118): pushes the
reactor at the end of the reactor list, all other fields unchanged. -/
def and_reactor {S Q R C St : Type}
    (self : GenericTestFramework S Q R C St) (reactor : R) :
    GenericTestFramework S Q R C St :=
  { service := self.service, queries := self.queries,
    reactors := self.reactors ++ [reactor],
    context_store := self.context_store }

/-- Embeds `and_reactors` (`framework.rs` lines 123-125): a left fold of
`and_reactor` over the supplied list. -/
def and_reactors {S Q R C St : Type}
    (self : GenericTestFramework S Q R C St) (reactors : List R) :
    GenericTestFramework S Q R C St :=
  reactors.foldl (fun acc r => acc.and_reactor r) self

/-- Embeds `given_no_previous_events` (`framework.rs` lines 137-139):
builds the executor from an empty event list, the service, the queries
and the context/store pair.  The reactor list is not passed. -/
def given_no_previous_events {S Q R C St Ev : Type}
    (self : GenericTestFramework S Q R C St) :
    AggregateTestExecutor Ev S Q C St :=
  AggregateTestExecutor.new [] self.service self.queries self.context_store

/-- Embeds `given` (`framework.rs` lines 150-152): builds the executor
from the supplied event list, the service, the queries and the
context/store pair.  The reactor list is not passed. -/
def given {S Q R C St Ev : Type}
    (self : GenericTestFramework S Q R C St) (events : List Ev) :
    AggregateTestExecutor Ev S Q C St :=
  AggregateTestExecutor.new events self.service self.queries self.context_store

end GenericTestFramework

/-- Embeds the `Reactor` trait from `src/query.rs` lines 36-53: `react`
takes the aggregate context, the aggregate id, the shared services and a
batch of event envelopes, and returns `Result<Vec<A::Event>, A::Error>`,
embedded as `Except Err (List Ev)`.  `Env` stands for
`EventEnvelope<A>`, `Sv` for `A::Services`, `Ev` for `A::Event` and
`Err` for `A::Error`. -/
structure Reactor (Sv Ev Err C Env : Type) where
  react : C → String → Sv → List Env → Except Err (List Ev)

/-! Concrete builders used by witnesses, at `Nat` instantiations of the
abstract service, query, reactor and event types. -/

/-- A concrete `MemStore`-typed harness holding one reactor, built by
`with_` followed by `and_reactor`. -/
def harnessWithOneReactor :
    GenericTestFramework Nat Nat Nat (MemStoreAggregateContext Nat) (MemStore Nat) :=
  (GenericTestFramework.with_ 0).and_reactor 7

/-- A concrete `MemStore`-typed harness with two queries and no
reactors. -/
def harnessWithTwoQueries :
    GenericTestFramework Nat Nat Nat (MemStoreAggregateContext Nat) (MemStore Nat) :=
  ((GenericTestFramework.with_ 0).and_query 1).and_query 2

/-- Helper: `and_queries` appends the supplied list, in order, to the
existing query list, leaving the other fields unchanged. -/
theorem GenericTestFramework.and_queries_spec {S Q R C St : Type}
    (f : GenericTestFramework S Q R C St) (qs : List Q) :
    f.and_queries qs =
      { service := f.service, queries := f.queries ++ qs,
        reactors := f.reactors, context_store := f.context_store } := by
  induction qs generalizing f with
  | nil => simp [GenericTestFramework.and_queries]
  | cons q qs ih =>
      simp only [GenericTestFramework.and_queries, List.foldl_cons] at *
      rw [ih]
      simp [GenericTestFramework.and_query]

/-- Helper: `and_reactors` appends the supplied list, in order, to the
existing reactor list, leaving the other fields unchanged. -/
theorem GenericTestFramework.and_reactors_spec {S Q R C St : Type}
    (f : GenericTestFramework S Q R C St) (rs : List R) :
    f.and_reactors rs =
      { service := f.service, queries := f.queries,
        reactors := f.reactors ++ rs, context_store := f.context_store } := by
  induction rs generalizing f with
  | nil => simp [GenericTestFramework.and_reactors]
  | cons r rs ih =>
      simp only [GenericTestFramework.and_reactors, List.foldl_cons] at *
      rw [ih]
      simp [GenericTestFramework.and_reactor]

/-- C1: the claim says the terminal transitions hand the whole
configuration, reactors included, to the Test Executor.  The code does
not: `given` and `given_no_previous_events` construct the executor from
the events, the service, the queries and the context/store pair only,
so the executor produced from a harness with reactors `[R1]` is
identical to the one produced from the same harness without `R1` — the
reactor list is discarded. -/
theorem terminal_transitions_discard_reactors :
    ((harnessWithOneReactor.given [5] : AggregateTestExecutor Nat Nat Nat (MemStoreAggregateContext Nat) (MemStore Nat)) =
      (GenericTestFramework.with_ 0 :
        GenericTestFramework Nat Nat Nat (MemStoreAggregateContext Nat) (MemStore Nat)).given [5]) ∧
    ((harnessWithOneReactor.given_no_previous_events : AggregateTestExecutor Nat Nat Nat (MemStoreAggregateContext Nat) (MemStore Nat)) =
      (GenericTestFramework.with_ 0 :
        GenericTestFramework Nat Nat Nat (MemStoreAggregateContext Nat) (MemStore Nat)).given_no_previous_events) ∧
    harnessWithOneReactor.reactors = [7] := by
  refine ⟨rfl, rfl, rfl⟩

/-- C2: on a harness with at least one reactor,
`using_context_and_store` panics (modelled as `none`), whatever the
service, the queries and the supplied context and store are. -/
theorem using_context_and_store_with_reactors_panics
    {S Q R Ev C2 St2 R2 : Type}
    (f : GenericTestFramework S Q R (MemStoreAggregateContext Ev) (MemStore Ev))
    (h : f.reactors ≠ []) (context : C2) (store : St2) :
    (f.using_context_and_store context store : Option (GenericTestFramework S Q R2 C2 St2)) = none := by
  simp [GenericTestFramework.using_context_and_store, h]

/-- Witness for C2 at a concrete harness holding one reactor. -/
theorem using_context_and_store_with_reactors_panics_witness :
    harnessWithOneReactor.reactors ≠ [] ∧
    (harnessWithOneReactor.using_context_and_store (3 : Nat) (4 : Nat) :
      Option (GenericTestFramework Nat Nat Nat Nat Nat)) = none :=
  ⟨by decide,
   using_context_and_store_with_reactors_panics harnessWithOneReactor (by decide) 3 4⟩

/-- C3: on a harness with zero reactors, `using_context_and_store`
succeeds whatever queries were added before it, and the resulting
harness carries the query list over unchanged and in order, together
with the service. -/
theorem using_context_and_store_without_reactors_succeeds
    {S Q R Ev C2 St2 R2 : Type}
    (f : GenericTestFramework S Q R (MemStoreAggregateContext Ev) (MemStore Ev))
    (h : f.reactors = []) (context : C2) (store : St2) :
    (f.using_context_and_store context store : Option (GenericTestFramework S Q R2 C2 St2)) =
      some { service := f.service, queries := f.queries,
             reactors := [], context_store := some (context, store) } := by
  simp [GenericTestFramework.using_context_and_store, h]

/-- Witness for C3 at a concrete harness holding two queries. -/
theorem using_context_and_store_without_reactors_succeeds_witness :
    harnessWithTwoQueries.reactors = [] ∧
    (harnessWithTwoQueries.using_context_and_store (3 : Nat) (4 : Nat) :
      Option (GenericTestFramework Nat Nat Nat Nat Nat)) =
      some { service := 0, queries := [1, 2],
             reactors := [], context_store := some (3, 4) } :=
  ⟨rfl,
   using_context_and_store_without_reactors_succeeds harnessWithTwoQueries rfl 3 4⟩

/-- C4: `and_reactor` on an Initial harness (built by `with`, before any
explicit store binding) succeeds without aborting and appends the
reactor; the result stays at the default
`MemStoreAggregateContext`/`MemStore` instantiation, which is thereby
locked in for the remainder of the harness. -/
theorem and_reactor_on_initial_harness_succeeds {S Q R Ev : Type}
    (service : S) (reactor : R) :
    ((GenericTestFramework.with_ service :
        GenericTestFramework S Q R (MemStoreAggregateContext Ev) (MemStore Ev)).and_reactor
      reactor) =
      { service := service, queries := [], reactors := [reactor],
        context_store := none } :=
  rfl

/-- C5: each `and_query` appends at the end of the query list,
`and_queries` appends its argument list in order, and a harness built
from `with` followed by `and_queries [q1, ..., qn]` has query list
exactly `[q1, ..., qn]`: insertion order preserved, nothing
deduplicated, dropped or reordered. -/
theorem and_query_preserves_insertion_order {S Q R C St Ev : Type}
    (f : GenericTestFramework S Q R C St) (q : Q) (qs : List Q) (service : S) :
    (f.and_query q).queries = f.queries ++ [q] ∧
    (f.and_queries qs).queries = f.queries ++ qs ∧
    ((GenericTestFramework.with_ service :
        GenericTestFramework S Q R (MemStoreAggregateContext Ev) (MemStore Ev)).and_queries
      qs).queries = qs := by
  refine ⟨rfl, ?_, ?_⟩
  · rw [GenericTestFramework.and_queries_spec]
  · rw [GenericTestFramework.and_queries_spec]
    simp [GenericTestFramework.with_]

/-- C6: each `and_reactor` appends at the end of the reactor list, and
`and_reactors` appends its argument list in order: insertion order
preserved, nothing deduplicated, dropped or reordered. -/
theorem and_reactor_preserves_insertion_order {S Q R C St : Type}
    (f : GenericTestFramework S Q R C St) (r : R) (rs : List R) :
    (f.and_reactor r).reactors = f.reactors ++ [r] ∧
    (f.and_reactors rs).reactors = f.reactors ++ rs := by
  refine ⟨rfl, ?_⟩
  rw [GenericTestFramework.and_reactors_spec]

/-- C7: for every harness and every ordered event sequence,
`given events` produces an executor whose seeded history is exactly
that sequence. -/
theorem given_seeds_supplied_history {S Q R C St Ev : Type}
    (f : GenericTestFramework S Q R C St) (events : List Ev) :
    (f.given events).events = events :=
  rfl

/-- C8: for every harness, `given_no_previous_events` produces an
executor whose seeded history is the empty sequence. -/
theorem given_no_previous_events_seeds_empty_history {S Q R C St Ev : Type}
    (f : GenericTestFramework S Q R C St) :
    (f.given_no_previous_events : AggregateTestExecutor Ev S Q C St).events = [] :=
  rfl

/-- C9: every `Reactor` implementation's `react` evaluates to a value
that is either an ordered list of follow-up events or an error of the
aggregate's own error type `Err` — the same `Except Err (List Ev)`
shape as a command-handling result, returned as a value, never
thrown. -/
theorem reactor_react_returns_events_or_aggregate_error
    {Sv Ev Err C Env : Type} (r : Reactor Sv Ev Err C Env)
    (context : C) (aggregate_id : String) (services : Sv)
    (events : List Env) :
    (∃ followUps : List Ev,
        r.react context aggregate_id services events = Except.ok followUps) ∨
    (∃ e : Err, r.react context aggregate_id services events = Except.error e) := by
  cases h : r.react context aggregate_id services events with
  | ok evs => exact Or.inl ⟨evs, rfl⟩
  | error e => exact Or.inr ⟨e, rfl⟩

/-- C10: `using_mem_store` equals
`using_context_and_store default default` on every builder state, and
it panics (yields `none`) exactly when at least one reactor is
present. -/
theorem using_mem_store_equiv_using_context_and_store_default
    {S Q R Ev R2 : Type}
    (f : GenericTestFramework S Q R (MemStoreAggregateContext Ev) (MemStore Ev)) :
    (f.using_mem_store :
        Option (GenericTestFramework S Q R2 (MemStoreAggregateContext Ev) (MemStore Ev))) =
      f.using_context_and_store default default ∧
    ((f.using_mem_store :
        Option (GenericTestFramework S Q R2 (MemStoreAggregateContext Ev) (MemStore Ev))) = none ↔
      f.reactors ≠ []) := by
  refine ⟨rfl, ?_⟩
  cases hr : f.reactors with
  | nil =>
      simp [GenericTestFramework.using_mem_store,
        GenericTestFramework.using_context_and_store, hr]
  | cons r rs =>
      simp [GenericTestFramework.using_mem_store,
        GenericTestFramework.using_context_and_store, hr]
